import Mathlib

/-!
Verification of the iron-condor pricing core (`src/iron_condor_app.py`).

The payoff engine (strategy scalars and the pointwise payoff function) is
embedded over `ℚ`, faithfully following the arithmetic of the source; the
Black-Scholes Greeks engine is embedded over `ℝ`, with scipy's `norm.pdf`
and `norm.cdf` modelled as the standard normal density and its integral,
Python's `round(x, n)` as rounding `x * 10^n` to the nearest integer, and
the runtime errors the source can raise (`ValueError` from `math.log` /
`math.sqrt` / the explicit `raise`, `ZeroDivisionError` from float
division by zero) made explicit in an `Except` result.
-/

namespace IronCondor

/-- The eight scalar inputs of the strategy block (strikes and premiums of
the four legs), as read from the sidebar in the source. -/
structure CondorInputs where
  put_sell_strike : ℚ
  put_buy_strike : ℚ
  call_sell_strike : ℚ
  call_buy_strike : ℚ
  put_sell_premium : ℚ
  put_buy_premium : ℚ
  call_sell_premium : ℚ
  call_buy_premium : ℚ
  deriving DecidableEq

/-- `total_credit = (put_sell_premium - put_buy_premium) + (call_sell_premium - call_buy_premium)`. -/
def total_credit (c : CondorInputs) : ℚ :=
  (c.put_sell_premium - c.put_buy_premium) + (c.call_sell_premium - c.call_buy_premium)

/-- `put_spread_width = put_sell_strike - put_buy_strike`. -/
def put_spread_width (c : CondorInputs) : ℚ :=
  c.put_sell_strike - c.put_buy_strike

/-- `call_spread_width = call_buy_strike - call_sell_strike`. -/
def call_spread_width (c : CondorInputs) : ℚ :=
  c.call_buy_strike - c.call_sell_strike

/-- `max_loss = max(put_spread_width, call_spread_width) - total_credit`. -/
def max_loss (c : CondorInputs) : ℚ :=
  max (put_spread_width c) (call_spread_width c) - total_credit c

/-- `break_even_low = put_sell_strike - total_credit`. -/
def break_even_low (c : CondorInputs) : ℚ :=
  c.put_sell_strike - total_credit c

/-- `break_even_high = call_sell_strike + total_credit`. -/
def break_even_high (c : CondorInputs) : ℚ :=
  c.call_sell_strike + total_credit c

/-- Pointwise payoff of `calculate_payoff` (the source applies the same
expression elementwise over a price array via `np.where` / `np.minimum`). -/
def calculate_payoff (c : CondorInputs) (price : ℚ) : ℚ :=
  let put_payoff :=
    if price < c.put_sell_strike then min (c.put_sell_strike - price) (put_spread_width c) else 0
  let put_protection :=
    if price < c.put_buy_strike then c.put_buy_strike - price else 0
  let call_payoff :=
    if price > c.call_sell_strike then min (price - c.call_sell_strike) (call_spread_width c) else 0
  let call_protection :=
    if price > c.call_buy_strike then price - c.call_buy_strike else 0
  total_credit c - (put_payoff - put_protection + call_payoff - call_protection)

/-- The payoff curve: `calculate_payoff` mapped over an ordered list of
price points (the source evaluates it over `np.linspace`). -/
def calculate_payoff_curve (c : CondorInputs) (prices : List ℚ) : List (ℚ × ℚ) :=
  prices.map (fun p => (p, calculate_payoff c p))

/-- The example scenario of the spec: putBuy=100000 at premium 280,
putSell=102000 at premium 420, callSell=112000 at premium 400,
callBuy=114000 at premium 260. -/
def exampleCondor : CondorInputs :=
  { put_sell_strike := 102000
    put_buy_strike := 100000
    call_sell_strike := 112000
    call_buy_strike := 114000
    put_sell_premium := 420
    put_buy_premium := 280
    call_sell_premium := 400
    call_buy_premium := 260 }

/-! ### Greeks engine

`calculate_greeks(S, K, T, r, sigma, option_type)` from the source, over
`ℝ`.  The partial Python operations it uses are made explicit: `S / K`
raises `ZeroDivisionError` when `K = 0`; `math.log` raises `ValueError`
on a non-positive argument; `math.sqrt` raises `ValueError` on a negative
argument; the float division by `sigma * math.sqrt(T)` raises
`ZeroDivisionError` when that product is zero.  These checks appear in
the order Python evaluates the `d1` expression, before the
`option_type` dispatch, whose final branch is the source's own
`raise ValueError("Invalid option type")`. -/

/-- The runtime errors the Greeks calculator can raise. -/
inductive PyError where
  | valueError (msg : String)
  | zeroDivisionError
  deriving DecidableEq

/-- The record returned by `calculate_greeks` (the source's dict with keys
Delta, Gamma, Theta, Vega). -/
structure GreeksResult where
  Delta : ℝ
  Gamma : ℝ
  Theta : ℝ
  Vega : ℝ

/-- Standard normal density, scipy's `norm.pdf`. -/
noncomputable def norm_pdf (x : ℝ) : ℝ :=
  (Real.sqrt (2 * Real.pi))⁻¹ * Real.exp (-(1 / 2) * x ^ 2)

/-- Standard normal cumulative distribution, scipy's `norm.cdf`. -/
noncomputable def norm_cdf (x : ℝ) : ℝ :=
  ∫ t in Set.Iic x, norm_pdf t

/-- Python's `round(x, n)` for `n` decimal places, idealized over `ℝ`:
round `x * 10^n` to the nearest integer and scale back. -/
noncomputable def round_dp (n : ℕ) (x : ℝ) : ℝ :=
  ((round (x * 10 ^ n) : ℤ) : ℝ) / 10 ^ n

/-- The source's local `d1 = (math.log(S / K) + (r + sigma ** 2 / 2) * T) / (sigma * math.sqrt(T))`. -/
noncomputable def greeks_d1 (S K T r sigma : ℝ) : ℝ :=
  (Real.log (S / K) + (r + sigma ^ 2 / 2) * T) / (sigma * Real.sqrt T)

/-- The source's local `d2 = d1 - sigma * math.sqrt(T)`. -/
noncomputable def greeks_d2 (S K T r sigma : ℝ) : ℝ :=
  greeks_d1 S K T r sigma - sigma * Real.sqrt T

open scoped Classical in
/-- `calculate_greeks` from the source: Black-Scholes `d1`/`d2`, then the
per-type delta/gamma/theta/vega, rounded as in the source's returned dict
(`Theta` is divided by 365 for daily decay, `Vega` by 100 for a one
percentage point IV move, before rounding). -/
noncomputable def calculate_greeks (S K T r sigma : ℝ) (option_type : String) :
    Except PyError GreeksResult :=
  if K = 0 then .error .zeroDivisionError
  else if S / K ≤ 0 then .error (.valueError "math domain error")
  else if T < 0 then .error (.valueError "math domain error")
  else if sigma * Real.sqrt T = 0 then .error .zeroDivisionError
  else
    let d1 := greeks_d1 S K T r sigma
    let d2 := greeks_d2 S K T r sigma
    if option_type = "call" then
      .ok { Delta := round_dp 4 (norm_cdf d1)
            Gamma := round_dp 6 (norm_pdf d1 / (S * sigma * Real.sqrt T))
            Theta := round_dp 4 ((((-S) * norm_pdf d1 * sigma / (2 * Real.sqrt T))
                      - r * K * Real.exp (-r * T) * norm_cdf d2) / 365)
            Vega := round_dp 4 ((S * norm_pdf d1 * Real.sqrt T) / 100) }
    else if option_type = "put" then
      .ok { Delta := round_dp 4 (-norm_cdf (-d1))
            Gamma := round_dp 6 (norm_pdf d1 / (S * sigma * Real.sqrt T))
            Theta := round_dp 4 ((((-S) * norm_pdf d1 * sigma / (2 * Real.sqrt T))
                      + r * K * Real.exp (-r * T) * norm_cdf (-d2)) / 365)
            Vega := round_dp 4 ((S * norm_pdf d1 * Real.sqrt T) / 100) }
    else .error (.valueError "Invalid option type")

/-! ### Spec-side Black-Scholes formulas

Written from the spec's words in section 4.1, to be compared with the
source-derived `calculate_greeks` (claim C9). -/

/-- Spec formula `d1 = (ln(spot/strike) + (r + vol^2/2) T) / (vol sqrt T)`. -/
noncomputable def spec_d1 (S K T r sigma : ℝ) : ℝ :=
  (Real.log (S / K) + (r + sigma ^ 2 / 2) * T) / (sigma * Real.sqrt T)

/-- Spec formula `d2 = d1 - vol sqrt T`. -/
noncomputable def spec_d2 (S K T r sigma : ℝ) : ℝ :=
  spec_d1 S K T r sigma - sigma * Real.sqrt T

/-- Spec call delta `Phi(d1)`. -/
noncomputable def spec_delta_call (S K T r sigma : ℝ) : ℝ :=
  norm_cdf (spec_d1 S K T r sigma)

/-- Spec put delta `-Phi(-d1)`. -/
noncomputable def spec_delta_put (S K T r sigma : ℝ) : ℝ :=
  -norm_cdf (-spec_d1 S K T r sigma)

/-- Spec gamma `phi(d1) / (spot * vol * sqrt T)` (same for call and put). -/
noncomputable def spec_gamma (S K T r sigma : ℝ) : ℝ :=
  norm_pdf (spec_d1 S K T r sigma) / (S * sigma * Real.sqrt T)

/-- Spec call annual theta `-(spot phi(d1) vol)/(2 sqrt T) - r K e^(-rT) Phi(d2)`. -/
noncomputable def spec_theta_annual_call (S K T r sigma : ℝ) : ℝ :=
  -(S * norm_pdf (spec_d1 S K T r sigma) * sigma) / (2 * Real.sqrt T)
    - r * K * Real.exp (-r * T) * norm_cdf (spec_d2 S K T r sigma)

/-- Spec put annual theta `-(spot phi(d1) vol)/(2 sqrt T) + r K e^(-rT) Phi(-d2)`. -/
noncomputable def spec_theta_annual_put (S K T r sigma : ℝ) : ℝ :=
  -(S * norm_pdf (spec_d1 S K T r sigma) * sigma) / (2 * Real.sqrt T)
    + r * K * Real.exp (-r * T) * norm_cdf (-spec_d2 S K T r sigma)

/-- Spec annual vega `spot * phi(d1) * sqrt T` (same for call and put). -/
noncomputable def spec_vega_annual (S K T r sigma : ℝ) : ℝ :=
  S * norm_pdf (spec_d1 S K T r sigma) * Real.sqrt T

/-! ### Helper lemmas -/

lemma norm_pdf_nonneg (x : ℝ) : 0 ≤ norm_pdf x := by
  unfold norm_pdf
  positivity

lemma integrable_norm_pdf : MeasureTheory.Integrable norm_pdf := by
  have h : MeasureTheory.Integrable (fun x : ℝ => Real.exp (-(1 / 2) * x ^ 2)) :=
    integrable_exp_neg_mul_sq (by norm_num)
  unfold norm_pdf
  exact h.const_mul _

lemma integral_norm_pdf : ∫ t : ℝ, norm_pdf t = 1 := by
  have h : ∫ x : ℝ, Real.exp (-(1 / 2) * x ^ 2) = Real.sqrt (Real.pi / (1 / 2)) :=
    integral_gaussian (1 / 2)
  have hpi : (0 : ℝ) < 2 * Real.pi := by positivity
  have hne : Real.sqrt (2 * Real.pi) ≠ 0 := ne_of_gt (Real.sqrt_pos.mpr hpi)
  unfold norm_pdf
  rw [MeasureTheory.integral_mul_left, h]
  rw [show Real.pi / (1 / 2) = 2 * Real.pi by ring]
  exact inv_mul_cancel₀ hne

lemma norm_cdf_nonneg (x : ℝ) : 0 ≤ norm_cdf x :=
  MeasureTheory.setIntegral_nonneg measurableSet_Iic (fun t _ => norm_pdf_nonneg t)

lemma norm_cdf_le_one (x : ℝ) : norm_cdf x ≤ 1 := by
  have h := MeasureTheory.setIntegral_le_integral (s := Set.Iic x) integrable_norm_pdf
    (MeasureTheory.ae_of_all _ norm_pdf_nonneg)
  calc norm_cdf x ≤ ∫ t : ℝ, norm_pdf t := h
    _ = 1 := integral_norm_pdf

lemma round_real_mono {x y : ℝ} (h : x ≤ y) : round x ≤ round y := by
  rw [round_eq, round_eq]
  exact Int.floor_le_floor (by linarith)

lemma round_dp_mem_of_mem {n : ℕ} {a b x : ℝ} (ha : ∃ za : ℤ, (za : ℝ) = a * 10 ^ n)
    (hb : ∃ zb : ℤ, (zb : ℝ) = b * 10 ^ n) (h1 : a ≤ x) (h2 : x ≤ b) :
    a ≤ round_dp n x ∧ round_dp n x ≤ b := by
  obtain ⟨za, hza⟩ := ha
  obtain ⟨zb, hzb⟩ := hb
  have hpow : (0 : ℝ) < 10 ^ n := by positivity
  have hlo : (za : ℝ) ≤ (round (x * 10 ^ n) : ℤ) := by
    have hm : round ((za : ℝ)) ≤ round (x * 10 ^ n) := by
      apply round_real_mono
      rw [hza]
      exact mul_le_mul_of_nonneg_right h1 (le_of_lt hpow)
    rw [round_intCast] at hm
    exact_mod_cast hm
  have hhi : ((round (x * 10 ^ n) : ℤ) : ℝ) ≤ (zb : ℝ) := by
    have hm : round (x * 10 ^ n) ≤ round ((zb : ℝ)) := by
      apply round_real_mono
      rw [hzb]
      exact mul_le_mul_of_nonneg_right h2 (le_of_lt hpow)
    rw [round_intCast] at hm
    exact_mod_cast hm
  unfold round_dp
  constructor
  · rw [le_div_iff₀ hpow]
    linarith [hza, hlo]
  · rw [div_le_iff₀ hpow]
    linarith [hzb, hhi]

lemma round_dp_cdf_mem (z : ℝ) : 0 ≤ round_dp 4 (norm_cdf z) ∧ round_dp 4 (norm_cdf z) ≤ 1 :=
  round_dp_mem_of_mem ⟨0, by norm_num⟩ ⟨10000, by norm_num⟩ (norm_cdf_nonneg z)
    (norm_cdf_le_one z)

lemma round_dp_neg_cdf_mem (z : ℝ) :
    -1 ≤ round_dp 4 (-norm_cdf z) ∧ round_dp 4 (-norm_cdf z) ≤ 0 :=
  round_dp_mem_of_mem ⟨-10000, by norm_num⟩ ⟨0, by norm_num⟩
    (by linarith [norm_cdf_le_one z]) (by linarith [norm_cdf_nonneg z])

lemma calculate_greeks_call_eq (S K T r sigma : ℝ) (hK : K ≠ 0) (hSK : 0 < S / K)
    (hT : 0 < T) (hsig : sigma ≠ 0) :
    calculate_greeks S K T r sigma "call" = .ok
      { Delta := round_dp 4 (norm_cdf (greeks_d1 S K T r sigma))
        Gamma := round_dp 6 (norm_pdf (greeks_d1 S K T r sigma) / (S * sigma * Real.sqrt T))
        Theta := round_dp 4 ((((-S) * norm_pdf (greeks_d1 S K T r sigma) * sigma
                  / (2 * Real.sqrt T))
                  - r * K * Real.exp (-r * T) * norm_cdf (greeks_d2 S K T r sigma)) / 365)
        Vega := round_dp 4 ((S * norm_pdf (greeks_d1 S K T r sigma) * Real.sqrt T) / 100) } := by
  have hs : sigma * Real.sqrt T ≠ 0 := mul_ne_zero hsig (ne_of_gt (Real.sqrt_pos.mpr hT))
  simp only [calculate_greeks, if_neg hK, if_neg (not_le.mpr hSK),
    if_neg (not_lt.mpr (le_of_lt hT)), if_neg hs, if_pos]

lemma calculate_greeks_put_eq (S K T r sigma : ℝ) (hK : K ≠ 0) (hSK : 0 < S / K)
    (hT : 0 < T) (hsig : sigma ≠ 0) :
    calculate_greeks S K T r sigma "put" = .ok
      { Delta := round_dp 4 (-norm_cdf (-greeks_d1 S K T r sigma))
        Gamma := round_dp 6 (norm_pdf (greeks_d1 S K T r sigma) / (S * sigma * Real.sqrt T))
        Theta := round_dp 4 ((((-S) * norm_pdf (greeks_d1 S K T r sigma) * sigma
                  / (2 * Real.sqrt T))
                  + r * K * Real.exp (-r * T) * norm_cdf (-greeks_d2 S K T r sigma)) / 365)
        Vega := round_dp 4 ((S * norm_pdf (greeks_d1 S K T r sigma) * Real.sqrt T) / 100) } := by
  have hs : sigma * Real.sqrt T ≠ 0 := mul_ne_zero hsig (ne_of_gt (Real.sqrt_pos.mpr hT))
  simp only [calculate_greeks, if_neg hK, if_neg (not_le.mpr hSK),
    if_neg (not_lt.mpr (le_of_lt hT)), if_neg hs,
    if_neg (show ("put" : String) ≠ "call" by decide), if_pos]

lemma calculate_greeks_other_eq (S K T r sigma : ℝ) (ot : String) (hK : K ≠ 0)
    (hSK : 0 < S / K) (hT : 0 < T) (hsig : sigma ≠ 0) (hc : ot ≠ "call") (hp : ot ≠ "put") :
    calculate_greeks S K T r sigma ot = .error (.valueError "Invalid option type") := by
  have hs : sigma * Real.sqrt T ≠ 0 := mul_ne_zero hsig (ne_of_gt (Real.sqrt_pos.mpr hT))
  simp only [calculate_greeks, if_neg hK, if_neg (not_le.mpr hSK),
    if_neg (not_lt.mpr (le_of_lt hT)), if_neg hs, if_neg hc, if_neg hp]

/-! ### Claim theorems -/

/-- Claim C1: `computeSummary` derives its scalars exactly by the stated
formulas, and on the example inputs returns totalCredit 280, both widths
2000, maxLoss 1720, breakEvenLow 101720 and breakEvenHigh 112280. -/
theorem summary_formulas_and_example :
    (∀ c : CondorInputs,
      total_credit c = (c.put_sell_premium - c.put_buy_premium)
          + (c.call_sell_premium - c.call_buy_premium) ∧
      put_spread_width c = c.put_sell_strike - c.put_buy_strike ∧
      call_spread_width c = c.call_buy_strike - c.call_sell_strike ∧
      max_loss c = max (put_spread_width c) (call_spread_width c) - total_credit c ∧
      break_even_low c = c.put_sell_strike - total_credit c ∧
      break_even_high c = c.call_sell_strike + total_credit c) ∧
    total_credit exampleCondor = 280 ∧
    put_spread_width exampleCondor = 2000 ∧
    call_spread_width exampleCondor = 2000 ∧
    max_loss exampleCondor = 1720 ∧
    break_even_low exampleCondor = 101720 ∧
    break_even_high exampleCondor = 112280 := by
  refine ⟨fun c => ⟨rfl, rfl, rfl, rfl, rfl, rfl⟩, ?_, ?_, ?_, ?_, ?_, ?_⟩ <;>
    norm_num [total_credit, put_spread_width, call_spread_width, max_loss, break_even_low,
      break_even_high, exampleCondor]

/-- Claim C2: with the leg ordering putBuy < putSell ≤ callSell < callBuy,
the payoff at every price between the two sell strikes is exactly the
total credit. -/
theorem payoff_equals_totalCredit_between_sell_strikes (c : CondorInputs) (p : ℚ)
    (h1 : c.put_buy_strike < c.put_sell_strike)
    (h2 : c.put_sell_strike ≤ c.call_sell_strike)
    (h3 : c.call_sell_strike < c.call_buy_strike)
    (hlo : c.put_sell_strike ≤ p) (hhi : p ≤ c.call_sell_strike) :
    calculate_payoff c p = total_credit c := by
  simp only [calculate_payoff]
  rw [if_neg (by linarith), if_neg (by linarith), if_neg (by linarith), if_neg (by linarith)]
  ring

/-- Witness for C2: the example condor at the spot price 107200. -/
theorem payoff_equals_totalCredit_between_sell_strikes_witness :
    calculate_payoff exampleCondor 107200 = total_credit exampleCondor :=
  payoff_equals_totalCredit_between_sell_strikes exampleCondor 107200 (by decide) (by decide)
    (by decide) (by decide) (by decide)

/-- Counterexample for C3: on the spec's own example condor (whose legs
satisfy the ordering) at the price 100000, which lies inside the default
evaluated domain `[spot - 10000, spot + 10000]` for spot 107200, the
payoff is -1720, strictly below `totalCredit - maxLoss = -1440`. -/
theorem payoff_lower_bound_counterexample :
    exampleCondor.put_buy_strike < exampleCondor.put_sell_strike ∧
    exampleCondor.put_sell_strike ≤ exampleCondor.call_sell_strike ∧
    exampleCondor.call_sell_strike < exampleCondor.call_buy_strike ∧
    (107200 : ℚ) - 10000 ≤ 100000 ∧ (100000 : ℚ) ≤ 107200 + 10000 ∧
    calculate_payoff exampleCondor 100000 <
      total_credit exampleCondor - max_loss exampleCondor := by
  norm_num [exampleCondor, calculate_payoff, total_credit, max_loss, put_spread_width,
    call_spread_width]

/-- Claim C3 amended: with the leg ordering putBuy < putSell ≤ callSell <
callBuy, the payoff is bounded below by `-maxLoss` at every price (the
bound `totalCredit - maxLoss` of the claim is off by one totalCredit). -/
theorem payoff_bounded_below_by_neg_maxLoss (c : CondorInputs) (p : ℚ)
    (h1 : c.put_buy_strike < c.put_sell_strike)
    (h2 : c.put_sell_strike ≤ c.call_sell_strike)
    (h3 : c.call_sell_strike < c.call_buy_strike) :
    -(max_loss c) ≤ calculate_payoff c p := by
  simp only [calculate_payoff, max_loss, put_spread_width, call_spread_width, total_credit,
    min_def, max_def]
  split_ifs <;> linarith

/-- Witness for the amended C3: the example condor at price 100000, where
the bound `-maxLoss = -1720` is attained. -/
theorem payoff_bounded_below_by_neg_maxLoss_witness :
    -(max_loss exampleCondor) ≤ calculate_payoff exampleCondor 100000 :=
  payoff_bounded_below_by_neg_maxLoss exampleCondor 100000 (by decide) (by decide) (by decide)

/-- Claim C4: under the leg ordering and `0 ≤ totalCredit ≤` both spread
widths, the payoff vanishes exactly at the two reported break-even
prices. -/
theorem break_even_payoff_is_zero (c : CondorInputs)
    (h1 : c.put_buy_strike < c.put_sell_strike)
    (h2 : c.put_sell_strike ≤ c.call_sell_strike)
    (h3 : c.call_sell_strike < c.call_buy_strike)
    (htc0 : 0 ≤ total_credit c)
    (htcp : total_credit c ≤ put_spread_width c)
    (htcc : total_credit c ≤ call_spread_width c) :
    calculate_payoff c (break_even_low c) = 0 ∧
    calculate_payoff c (break_even_high c) = 0 := by
  simp only [total_credit, put_spread_width, call_spread_width] at htc0 htcp htcc
  constructor <;>
  · simp only [calculate_payoff, break_even_low, break_even_high, put_spread_width,
      call_spread_width, total_credit, min_def]
    split_ifs <;> linarith

/-- Witness for C4: the example condor, whose break-evens are 101720 and
112280. -/
theorem break_even_payoff_is_zero_witness :
    calculate_payoff exampleCondor (break_even_low exampleCondor) = 0 ∧
    calculate_payoff exampleCondor (break_even_high exampleCondor) = 0 :=
  break_even_payoff_is_zero exampleCondor (by decide) (by decide) (by decide)
    (by norm_num [total_credit, exampleCondor])
    (by norm_num [total_credit, put_spread_width, exampleCondor])
    (by norm_num [total_credit, call_spread_width, exampleCondor])

/-- Claim C5: for positive spot, strike, vol and time to expiry,
`calculate_greeks` succeeds and returns a call delta in `[0, 1]` and a
put delta in `[-1, 0]`. -/
theorem greeks_delta_bounds (S K T r sigma : ℝ)
    (hS : 0 < S) (hK : 0 < K) (hsig : 0 < sigma) (hT : 0 < T) :
    (∃ g : GreeksResult, calculate_greeks S K T r sigma "call" = .ok g ∧
      0 ≤ g.Delta ∧ g.Delta ≤ 1) ∧
    (∃ g : GreeksResult, calculate_greeks S K T r sigma "put" = .ok g ∧
      -1 ≤ g.Delta ∧ g.Delta ≤ 0) := by
  have hc := calculate_greeks_call_eq S K T r sigma (ne_of_gt hK) (div_pos hS hK) hT
    (ne_of_gt hsig)
  have hp := calculate_greeks_put_eq S K T r sigma (ne_of_gt hK) (div_pos hS hK) hT
    (ne_of_gt hsig)
  obtain ⟨h1, h2⟩ := round_dp_cdf_mem (greeks_d1 S K T r sigma)
  obtain ⟨h3, h4⟩ := round_dp_neg_cdf_mem (-greeks_d1 S K T r sigma)
  exact ⟨⟨_, hc, h1, h2⟩, ⟨_, hp, h3, h4⟩⟩

/-- Witness for C5 at spot 100, strike 95, one week to expiry, rate 0.05
and vol 0.25. -/
theorem greeks_delta_bounds_witness :
    (∃ g : GreeksResult,
        calculate_greeks 100 95 (7 / 365) (5 / 100) (25 / 100) "call" = .ok g ∧
        0 ≤ g.Delta ∧ g.Delta ≤ 1) ∧
    (∃ g : GreeksResult,
        calculate_greeks 100 95 (7 / 365) (5 / 100) (25 / 100) "put" = .ok g ∧
        -1 ≤ g.Delta ∧ g.Delta ≤ 0) :=
  greeks_delta_bounds 100 95 (7 / 365) (5 / 100) (25 / 100) (by norm_num) (by norm_num)
    (by norm_num) (by norm_num)

/-- Claim C6: at the same strike, spot, vol and time, the call and the put
records returned by `calculate_greeks` carry exactly the same gamma and
exactly the same vega. -/
theorem greeks_gamma_vega_parity (S K T r sigma : ℝ)
    (hS : 0 < S) (hK : 0 < K) (hsig : 0 < sigma) (hT : 0 < T) :
    ∃ gc gp : GreeksResult,
      calculate_greeks S K T r sigma "call" = .ok gc ∧
      calculate_greeks S K T r sigma "put" = .ok gp ∧
      gc.Gamma = gp.Gamma ∧ gc.Vega = gp.Vega :=
  ⟨_, _,
    calculate_greeks_call_eq S K T r sigma (ne_of_gt hK) (div_pos hS hK) hT (ne_of_gt hsig),
    calculate_greeks_put_eq S K T r sigma (ne_of_gt hK) (div_pos hS hK) hT (ne_of_gt hsig),
    rfl, rfl⟩

/-- Witness for C6 at spot 100, strike 95, one week to expiry, rate 0.05
and vol 0.25. -/
theorem greeks_gamma_vega_parity_witness :
    ∃ gc gp : GreeksResult,
      calculate_greeks 100 95 (7 / 365) (5 / 100) (25 / 100) "call" = .ok gc ∧
      calculate_greeks 100 95 (7 / 365) (5 / 100) (25 / 100) "put" = .ok gp ∧
      gc.Gamma = gp.Gamma ∧ gc.Vega = gp.Vega :=
  greeks_gamma_vega_parity 100 95 (7 / 365) (5 / 100) (25 / 100) (by norm_num) (by norm_num)
    (by norm_num) (by norm_num)

/-- Claim C7: any option type other than "call" and "put" makes
`calculate_greeks` fail with the invalid-option-type error, whatever the
numeric arguments, provided they let `d1`/`d2` be computed. -/
theorem greeks_invalid_option_type_errors (S K T r sigma : ℝ) (ot : String)
    (hS : 0 < S) (hK : 0 < K) (hsig : 0 < sigma) (hT : 0 < T)
    (hc : ot ≠ "call") (hp : ot ≠ "put") :
    calculate_greeks S K T r sigma ot = .error (.valueError "Invalid option type") :=
  calculate_greeks_other_eq S K T r sigma ot (ne_of_gt hK) (div_pos hS hK) hT (ne_of_gt hsig)
    hc hp

/-- Witness for C7 with the unrecognized option type "straddle". -/
theorem greeks_invalid_option_type_errors_witness :
    calculate_greeks 100 95 (7 / 365) (5 / 100) (25 / 100) "straddle" =
      .error (.valueError "Invalid option type") :=
  greeks_invalid_option_type_errors 100 95 (7 / 365) (5 / 100) (25 / 100) "straddle"
    (by norm_num) (by norm_num) (by norm_num) (by norm_num) (by decide) (by decide)

/-- Refutation evidence for C8: with the non-positive volatility -0.25
(and otherwise valid inputs) `calculate_greeks` does not fail at all: it
silently returns a Greeks record, rather than raising any error. -/
theorem greeks_negative_vol_silently_returns :
    ∃ g : GreeksResult,
      calculate_greeks 100 100 (7 / 365) (5 / 100) (-(25 / 100)) "put" = .ok g :=
  ⟨_, calculate_greeks_put_eq 100 100 (7 / 365) (5 / 100) (-(25 / 100)) (by norm_num)
    (by norm_num) (by norm_num) (by norm_num)⟩

/-- Claim C9: for positive inputs the record returned by
`calculate_greeks` is exactly the spec's Black-Scholes annual values,
normalized (theta / 365, vega / 100) and rounded (delta, theta, vega to 4
decimal places, gamma to 6). -/
theorem greeks_match_spec_formulas (S K T r sigma : ℝ)
    (hS : 0 < S) (hK : 0 < K) (hsig : 0 < sigma) (hT : 0 < T) :
    calculate_greeks S K T r sigma "call" = .ok
      { Delta := round_dp 4 (spec_delta_call S K T r sigma)
        Gamma := round_dp 6 (spec_gamma S K T r sigma)
        Theta := round_dp 4 (spec_theta_annual_call S K T r sigma / 365)
        Vega := round_dp 4 (spec_vega_annual S K T r sigma / 100) } ∧
    calculate_greeks S K T r sigma "put" = .ok
      { Delta := round_dp 4 (spec_delta_put S K T r sigma)
        Gamma := round_dp 6 (spec_gamma S K T r sigma)
        Theta := round_dp 4 (spec_theta_annual_put S K T r sigma / 365)
        Vega := round_dp 4 (spec_vega_annual S K T r sigma / 100) } := by
  have hd1 : spec_d1 S K T r sigma = greeks_d1 S K T r sigma := rfl
  have hd2 : spec_d2 S K T r sigma = greeks_d2 S K T r sigma := rfl
  constructor
  · rw [calculate_greeks_call_eq S K T r sigma (ne_of_gt hK) (div_pos hS hK) hT
      (ne_of_gt hsig)]
    simp only [spec_delta_call, spec_gamma, spec_theta_annual_call, spec_vega_annual, hd1, hd2]
    congr 2
    congr 1
    ring
  · rw [calculate_greeks_put_eq S K T r sigma (ne_of_gt hK) (div_pos hS hK) hT
      (ne_of_gt hsig)]
    simp only [spec_delta_put, spec_gamma, spec_theta_annual_put, spec_vega_annual, hd1, hd2]
    congr 2
    congr 1
    ring

/-- Witness for C9 at spot 100, strike 95, one week to expiry, rate 0.05
and vol 0.25. -/
theorem greeks_match_spec_formulas_witness :
    calculate_greeks 100 95 (7 / 365) (5 / 100) (25 / 100) "call" = .ok
      { Delta := round_dp 4 (spec_delta_call 100 95 (7 / 365) (5 / 100) (25 / 100))
        Gamma := round_dp 6 (spec_gamma 100 95 (7 / 365) (5 / 100) (25 / 100))
        Theta := round_dp 4 (spec_theta_annual_call 100 95 (7 / 365) (5 / 100) (25 / 100) / 365)
        Vega := round_dp 4 (spec_vega_annual 100 95 (7 / 365) (5 / 100) (25 / 100) / 100) } ∧
    calculate_greeks 100 95 (7 / 365) (5 / 100) (25 / 100) "put" = .ok
      { Delta := round_dp 4 (spec_delta_put 100 95 (7 / 365) (5 / 100) (25 / 100))
        Gamma := round_dp 6 (spec_gamma 100 95 (7 / 365) (5 / 100) (25 / 100))
        Theta := round_dp 4 (spec_theta_annual_put 100 95 (7 / 365) (5 / 100) (25 / 100) / 365)
        Vega := round_dp 4 (spec_vega_annual 100 95 (7 / 365) (5 / 100) (25 / 100) / 100) } :=
  greeks_match_spec_formulas 100 95 (7 / 365) (5 / 100) (25 / 100) (by norm_num) (by norm_num)
    (by norm_num) (by norm_num)

/-- Claim C10: the option-type dispatch is case sensitive: the spec's
capitalized enum literals "Call" and "Put" are rejected with the
invalid-option-type error, while the lowercase "call" and "put"
succeed. -/
theorem greeks_option_type_case_sensitive (S K T r sigma : ℝ)
    (hS : 0 < S) (hK : 0 < K) (hsig : 0 < sigma) (hT : 0 < T) :
    calculate_greeks S K T r sigma "Call" = .error (.valueError "Invalid option type") ∧
    calculate_greeks S K T r sigma "Put" = .error (.valueError "Invalid option type") ∧
    (∃ g : GreeksResult, calculate_greeks S K T r sigma "call" = .ok g) ∧
    (∃ g : GreeksResult, calculate_greeks S K T r sigma "put" = .ok g) :=
  ⟨calculate_greeks_other_eq S K T r sigma "Call" (ne_of_gt hK) (div_pos hS hK) hT
      (ne_of_gt hsig) (by decide) (by decide),
    calculate_greeks_other_eq S K T r sigma "Put" (ne_of_gt hK) (div_pos hS hK) hT
      (ne_of_gt hsig) (by decide) (by decide),
    ⟨_, calculate_greeks_call_eq S K T r sigma (ne_of_gt hK) (div_pos hS hK) hT
      (ne_of_gt hsig)⟩,
    ⟨_, calculate_greeks_put_eq S K T r sigma (ne_of_gt hK) (div_pos hS hK) hT
      (ne_of_gt hsig)⟩⟩

/-- Witness for C10 at spot 100, strike 95, one week to expiry, rate 0.05
and vol 0.25. -/
theorem greeks_option_type_case_sensitive_witness :
    calculate_greeks 100 95 (7 / 365) (5 / 100) (25 / 100) "Call" =
      .error (.valueError "Invalid option type") ∧
    calculate_greeks 100 95 (7 / 365) (5 / 100) (25 / 100) "Put" =
      .error (.valueError "Invalid option type") ∧
    (∃ g : GreeksResult, calculate_greeks 100 95 (7 / 365) (5 / 100) (25 / 100) "call" = .ok g) ∧
    (∃ g : GreeksResult, calculate_greeks 100 95 (7 / 365) (5 / 100) (25 / 100) "put" = .ok g) :=
  greeks_option_type_case_sensitive 100 95 (7 / 365) (5 / 100) (25 / 100) (by norm_num)
    (by norm_num) (by norm_num) (by norm_num)

end IronCondor
